import Mathlib

/-!
# smart-green-raisins/App.js: the todo store, its controller and its view

A shallow embedding of `App.js`:

* `dataReducer` (lines 17-37), the reducer behind `useReducer`;
* `fetchTodos`, `addTodo`, `updateTodoStatus` (lines 49-93), the three asynchronous
  operations of `DataProvider`, each split at its `await` into the part that runs at once
  and the part that runs when the network call has settled;
* `TodoApp` (lines 107-199), as the function from the store state to the element tree it returns.

JavaScript is dynamically typed and the payloads come straight from `response.json()`,
so the store holds `JSVal`s. Numbers are the integer-valued ones. Values have no identity
in the embedding: `===` between two arrays or objects is `false`, which is what the
program sees, since every payload is freshly parsed and so never the same reference as
anything already in the store.
-/

namespace SmartGreenRaisins

/-! ## JavaScript values -/

/-- A JavaScript value: whatever `JSON.parse` can return, and `undefined`. -/
inductive JSVal where
  | undefined : JSVal
  | null : JSVal
  | bool (b : Bool) : JSVal
  | num (n : Int) : JSVal
  | str (s : String) : JSVal
  | arr (items : List JSVal) : JSVal
  | obj (fields : List (String × JSVal)) : JSVal

/-- An exception thrown while evaluating an expression. The program only ever meets
`TypeError` (reading a property of `null`/`undefined`, spreading a non-iterable,
calling something that is not a function). -/
inductive JSError where
  | typeError : JSError

/-- The property names the program reads off values. -/
inductive Key where
  | id
  | todos
  | todo
  | completed
  | length

/-- The name of a property as it is written in the source. -/
def Key.name : Key → String
  | .id => "id"
  | .todos => "todos"
  | .todo => "todo"
  | .completed => "completed"
  | .length => "length"

/-- JavaScript truthiness, as used by `if (v)`, `v && w`, `v ? a : b` and `!v`. -/
def truthy : JSVal → Bool
  | .undefined => false
  | .null => false
  | .bool b => b
  | .num n => decide (n ≠ 0)
  | .str s => decide (s ≠ "")
  | .arr _ => true
  | .obj _ => true

/-- Strict equality `a === b`. -/
def strictEq : JSVal → JSVal → Bool
  | .undefined, .undefined => true
  | .null, .null => true
  | .bool a, .bool b => decide (a = b)
  | .num a, .num b => decide (a = b)
  | .str a, .str b => decide (a = b)
  | _, _ => false

/-- Own property of a parsed object; `undefined` when absent. -/
def ownProp (fields : List (String × JSVal)) (k : String) : JSVal :=
  match fields.lookup k with
  | some v => v
  | none => .undefined

/-- Property read `v.k` for the keys of `Key`: throws on `null` and `undefined`; arrays and
strings have a `length`; no prototype defines any of the other keys. -/
def getProp (v : JSVal) (k : Key) : Except JSError JSVal :=
  match v, k with
  | .undefined, _ => .error .typeError
  | .null, _ => .error .typeError
  | .arr items, .length => .ok (.num items.length)
  | .str s, .length => .ok (.num s.utf16Length)
  | .obj fields, k => .ok (ownProp fields k.name)
  | _, _ => .ok .undefined

/-- The elements produced by the spread `...v` inside an array literal. -/
def spread : JSVal → Except JSError (List JSVal)
  | .arr items => .ok items
  | .str s => .ok (s.toList.map fun c => .str (String.singleton c))
  | _ => .error .typeError

/-- Left-to-right map with a callback that may throw. -/
def mapThrowing {α β : Type} (f : α → Except JSError β) : List α → Except JSError (List β)
  | [] => .ok []
  | x :: xs =>
    match f x with
    | .error e => .error e
    | .ok y =>
      match mapThrowing f xs with
      | .error e => .error e
      | .ok ys => .ok (y :: ys)

/-- The list behind `v.map(callback)`: only an array has a callable `map`. -/
def arrayItems : JSVal → Except JSError (List JSVal)
  | .arr items => .ok items
  | _ => .error .typeError

/-! ## The store (lines 17-46) -/

/-- The state held by `useReducer`. -/
structure State where
  todos : JSVal
  loading : JSVal
  error : JSVal

/-- The actions handed to `dispatch`; `other` is any action whose type is none of the five. -/
inductive Action where
  | SET_LOADING (payload : JSVal)
  | SET_TODOS (payload : JSVal)
  | ADD_TODO (payload : JSVal)
  | UPDATE_TODO (payload : JSVal)
  | SET_ERROR (payload : JSVal)
  | other

/-- The callback of the `UPDATE_TODO` case:
`todo => todo.id === action.payload.id ? action.payload : todo`. -/
def replaceIfSameId (payload todo : JSVal) : Except JSError JSVal :=
  match getProp todo .id with
  | .error e => .error e
  | .ok a =>
    match getProp payload .id with
    | .error e => .error e
    | .ok b => .ok (if strictEq a b then payload else todo)

/-- The reducer `dataReducer` (lines 17-37). -/
def dataReducer (state : State) : Action → Except JSError State
  | .SET_LOADING payload => .ok { state with loading := payload }
  | .SET_TODOS payload => .ok { state with todos := payload, loading := .bool false }
  | .ADD_TODO payload =>
    match spread state.todos with
    | .error e => .error e
    | .ok rest => .ok { state with todos := .arr (payload :: rest) }
  | .UPDATE_TODO payload =>
    match arrayItems state.todos with
    | .error e => .error e
    | .ok items =>
      match mapThrowing (replaceIfSameId payload) items with
      | .error e => .error e
      | .ok items' => .ok { state with todos := .arr items' }
  | .SET_ERROR payload => .ok { state with error := payload, loading := .bool false }
  | .other => .ok state

/-- The state `useReducer` starts from (lines 40-44). -/
def initialState : State :=
  { todos := .arr [], loading := .bool true, error := .null }

/-- Successive dispatches: the reducer applied to each action in turn. -/
def runActions (state : State) : List Action → Except JSError State
  | [] => .ok state
  | a :: rest =>
    match dataReducer state a with
    | .error e => .error e
    | .ok state' => runActions state' rest

/-! ## The network and the controller (lines 49-97) -/

/-- What `response.json()` settles to: a rejection carrying the message of its error, or the
parsed body. -/
inductive Body where
  | invalid (message : String)
  | parsed (data : JSVal)

/-- What `fetch(...)` settles to: a rejection carrying the message of its error, or a
response with its `ok` flag and its body. -/
inductive NetResult where
  | rejected (message : String)
  | response (ok : Bool) (body : Body)

/-- The three calls the program makes. -/
inductive Request where
  | list
  | add (todo : String)
  | update (todoId : JSVal) (completed : Bool)

/-- The JavaScript engine, as far as the program can observe it: the message of the
`TypeError` raised when a property of `null` is read. -/
structure Engine where
  typeErrorMessage : String

/-- First part of `fetchTodos` (line 50), up to the first `await`. -/
def fetchTodos_begin (s : State) : Except JSError State :=
  dataReducer s (.SET_LOADING (.bool true))

/-- Second part of `fetchTodos` (lines 52-58): what runs once the call has settled. -/
def fetchTodos_resume (e : Engine) (r : NetResult) (s : State) : Except JSError State :=
  match r with
  | .rejected message => dataReducer s (.SET_ERROR (.str message))
  | .response false _ => dataReducer s (.SET_ERROR (.str "Failed to fetch todos."))
  | .response true (.invalid message) => dataReducer s (.SET_ERROR (.str message))
  | .response true (.parsed data) =>
    match getProp data .todos with
    | .ok todos => dataReducer s (.SET_TODOS todos)
    | .error _ => dataReducer s (.SET_ERROR (.str e.typeErrorMessage))

/-- The operation `fetchTodos` (lines 49-59) run to its end with nothing in between. -/
def fetchTodos (e : Engine) (net : Request → NetResult) (s : State) : Except JSError State :=
  match fetchTodos_begin s with
  | .error err => .error err
  | .ok s' => fetchTodos_resume e (net .list) s'

/-- What `addTodo` does once its call has settled (lines 72-77). -/
def addTodo_resume (r : NetResult) (s : State) : Except JSError State :=
  match r with
  | .rejected message => dataReducer s (.SET_ERROR (.str message))
  | .response false _ => dataReducer s (.SET_ERROR (.str "Failed to add todo."))
  | .response true (.invalid message) => dataReducer s (.SET_ERROR (.str message))
  | .response true (.parsed data) => dataReducer s (.ADD_TODO data)

/-- The operation `addTodo` (lines 61-78). -/
def addTodo (net : Request → NetResult) (newTodoText : String) (s : State) :
    Except JSError State :=
  addTodo_resume (net (.add newTodoText)) s

/-- What `updateTodoStatus` does once its call has settled (lines 87-92). -/
def updateTodoStatus_resume (r : NetResult) (s : State) : Except JSError State :=
  match r with
  | .rejected message => dataReducer s (.SET_ERROR (.str message))
  | .response false _ => dataReducer s (.SET_ERROR (.str "Failed to update todo."))
  | .response true (.invalid message) => dataReducer s (.SET_ERROR (.str message))
  | .response true (.parsed data) => dataReducer s (.UPDATE_TODO data)

/-- The operation `updateTodoStatus` (lines 80-93). -/
def updateTodoStatus (net : Request → NetResult) (todoId : JSVal) (completed : Bool)
    (s : State) : Except JSError State :=
  updateTodoStatus_resume (net (.update todoId completed)) s

/-! ## The view (lines 107-199) -/

/-- One row of the list (lines 167-193), as the values its elements are built from. -/
structure Row where
  key : JSVal
  struck : Bool
  text : JSVal
  pressId : JSVal
  pressCompleted : Bool
  label : String

/-- What `TodoApp` returns: the loading indicator (lines 119-124), the error screen with the
message and the Retry button whose press handler is `fetchTodos` (lines 128-138), or the
list view with its rows (lines 141-198). -/
inductive View where
  | loading
  | error (message : JSVal)
  | list (rows : List Row)

/-- The callback of `state.todos.map` in the list view (lines 166-194). -/
def renderRow (todo : JSVal) : Except JSError Row :=
  match getProp todo .id, getProp todo .completed, getProp todo .todo with
  | .ok i, .ok c, .ok t =>
    .ok { key := i, struck := truthy c, text := t, pressId := i,
          pressCompleted := !truthy c,
          label := if truthy c then "Undo" else "Complete" }
  | _, _, _ => .error .typeError

/-- The condition `state.loading && state.todos.length === 0` (line 118). -/
def loadingAndEmpty (state : State) : Except JSError Bool :=
  if truthy state.loading then
    match getProp state.todos .length with
    | .error e => .error e
    | .ok n => .ok (strictEq n (.num 0))
  else .ok false

/-- The component `TodoApp` (lines 118-198). -/
def TodoApp (state : State) : Except JSError View :=
  match loadingAndEmpty state with
  | .error e => .error e
  | .ok true => .ok .loading
  | .ok false =>
    if truthy state.error then .ok (.error state.error)
    else
      match arrayItems state.todos with
      | .error e => .error e
      | .ok items =>
        match mapThrowing renderRow items with
        | .error e => .error e
        | .ok rows => .ok (.list rows)

/-- The press handler of a row (line 183), for the todo the row was rendered from. -/
def toggleTodo (net : Request → NetResult) (todo : JSVal) (s : State) :
    Except JSError State :=
  match renderRow todo with
  | .error e => .error e
  | .ok row => updateTodoStatus net row.pressId row.pressCompleted s

/-! ## The store driven by the controller -/

/-- The store together with the number of list calls that have not settled yet. -/
structure Sys where
  store : State
  listInFlight : Nat

/-- What can happen next. -/
inductive Event where
  | refreshStarts
  | listSettles (r : NetResult)
  | createSettles (r : NetResult)
  | updateSettles (r : NetResult)

/-- The store right after mount: the effect of line 95 has called `fetchTodos`, which is
waiting for its response. -/
def mounted : Sys :=
  { store := { todos := .arr [], loading := .bool true, error := .null }, listInFlight := 1 }

/-- One event applied to the system; `none` when the event cannot happen (no list call to
settle) or the reducer throws. -/
def step (e : Engine) (sys : Sys) : Event → Option Sys
  | .refreshStarts =>
    match fetchTodos_begin sys.store with
    | .ok s => some { store := s, listInFlight := sys.listInFlight + 1 }
    | .error _ => none
  | .listSettles r =>
    if sys.listInFlight = 0 then none
    else
      match fetchTodos_resume e r sys.store with
      | .ok s => some { store := s, listInFlight := sys.listInFlight - 1 }
      | .error _ => none
  | .createSettles r =>
    match addTodo_resume r sys.store with
    | .ok s => some { sys with store := s }
    | .error _ => none
  | .updateSettles r =>
    match updateTodoStatus_resume r sys.store with
    | .ok s => some { sys with store := s }
    | .error _ => none

/-- A run of events from a system state. -/
def runEvents (e : Engine) (sys : Sys) : List Event → Option Sys
  | [] => some sys
  | ev :: rest =>
    match step e sys ev with
    | none => none
    | some sys' => runEvents e sys' rest

/-! ## Well-typed tasks -/

/-- A task as the service sends it: the object with the four fields of lines 66-69 and an id. -/
structure Todo where
  id : Int
  todo : String
  completed : Bool
  userId : Int
  deriving DecidableEq

/-- A task as a JavaScript object. -/
def Todo.toJS (t : Todo) : JSVal :=
  .obj [("id", .num t.id), ("todo", .str t.todo), ("completed", .bool t.completed),
        ("userId", .num t.userId)]

/-- The row of a task. -/
def Todo.row (t : Todo) : Row :=
  { key := .num t.id, struck := t.completed, text := .str t.todo, pressId := .num t.id,
    pressCompleted := !t.completed, label := if t.completed then "Undo" else "Complete" }

/-- The error field as a JavaScript value: `null` or a message. -/
def errorVal : Option String → JSVal
  | none => .null
  | some message => .str message

/-- The reducer actions whose payloads are what the service is documented to send. -/
inductive TodoAction where
  | setLoading (loading : Bool)
  | setTodos (todos : List Todo)
  | addTodo (todo : Todo)
  | updateTodo (todo : Todo)
  | setError (message : String)

/-- A typed action as the action object that is dispatched. -/
def TodoAction.toAction : TodoAction → Action
  | .setLoading loading => .SET_LOADING (.bool loading)
  | .setTodos todos => .SET_TODOS (.arr (todos.map Todo.toJS))
  | .addTodo todo => .ADD_TODO todo.toJS
  | .updateTodo todo => .UPDATE_TODO todo.toJS
  | .setError message => .SET_ERROR (.str message)

/-- The message with which the list call fails: the call is rejected, the status is not
successful, the body is not valid JSON, or the body is the JSON value `null`. -/
def listFailure (e : Engine) : NetResult → Option String
  | .rejected message => some message
  | .response false _ => some "Failed to fetch todos."
  | .response true (.invalid message) => some message
  | .response true (.parsed .null) => some e.typeErrorMessage
  | _ => none

/-! ## Helper lemmas -/

theorem getProp_toJS_id (t : Todo) : getProp t.toJS .id = .ok (.num t.id) := by
  simp [Todo.toJS, getProp, ownProp, List.lookup, Key.name]

theorem getProp_toJS_completed (t : Todo) :
    getProp t.toJS .completed = .ok (.bool t.completed) := by
  simp [Todo.toJS, getProp, ownProp, List.lookup, Key.name]

theorem getProp_toJS_todo (t : Todo) : getProp t.toJS .todo = .ok (.str t.todo) := by
  simp [Todo.toJS, getProp, ownProp, List.lookup, Key.name]

theorem replaceIfSameId_toJS (t x : Todo) :
    replaceIfSameId t.toJS x.toJS = .ok (if x.id = t.id then t else x).toJS := by
  unfold replaceIfSameId
  rw [getProp_toJS_id, getProp_toJS_id]
  by_cases h : x.id = t.id <;> simp [strictEq, h]

theorem mapThrowing_replace (t : Todo) (ts : List Todo) :
    mapThrowing (replaceIfSameId t.toJS) (ts.map Todo.toJS)
      = .ok ((ts.map fun x => if x.id = t.id then t else x).map Todo.toJS) := by
  induction ts with
  | nil => rfl
  | cons x xs ih =>
    simp only [List.map_cons, mapThrowing, replaceIfSameId_toJS, ih]

theorem renderRow_toJS (t : Todo) : renderRow t.toJS = .ok t.row := by
  unfold renderRow
  rw [getProp_toJS_id, getProp_toJS_completed, getProp_toJS_todo]
  simp [truthy, Todo.row]

theorem mapThrowing_renderRow (ts : List Todo) :
    mapThrowing renderRow (ts.map Todo.toJS) = .ok (ts.map Todo.row) := by
  induction ts with
  | nil => rfl
  | cons x xs ih => simp only [List.map_cons, mapThrowing, renderRow_toJS, ih]

theorem update_todos (ts : List Todo) (l e : JSVal) (t : Todo) :
    dataReducer { todos := .arr (ts.map Todo.toJS), loading := l, error := e }
        (.UPDATE_TODO t.toJS)
      = .ok { todos := .arr ((ts.map fun x => if x.id = t.id then t else x).map Todo.toJS),
              loading := l, error := e } := by
  simp only [dataReducer, arrayItems, mapThrowing_replace]

/-- The reducer never changes `error` except through `SET_ERROR`. -/
theorem dataReducer_error (s s' : State) (a : Action) (h : dataReducer s a = .ok s') :
    s'.error = s.error ∨ ∃ p, a = .SET_ERROR p ∧ s'.error = p := by
  cases a with
  | SET_LOADING p => simp [dataReducer] at h; subst h; exact Or.inl rfl
  | SET_TODOS p => simp [dataReducer] at h; subst h; exact Or.inl rfl
  | ADD_TODO p =>
    simp only [dataReducer] at h
    split at h
    · cases h
    · simp at h; subst h; exact Or.inl rfl
  | UPDATE_TODO p =>
    simp only [dataReducer] at h
    split at h
    · cases h
    · split at h
      · cases h
      · simp at h; subst h; exact Or.inl rfl
  | SET_ERROR p => simp [dataReducer] at h; subst h; exact Or.inr ⟨p, rfl, rfl⟩
  | other => simp [dataReducer] at h; subst h; exact Or.inl rfl

theorem toggleTodo_toJS (net : Request → NetResult) (ts : List Todo) (l e : JSVal)
    (t u : Todo) (hid : u.id = t.id)
    (hnet : net (.update (.num t.id) (!t.completed)) = .response true (.parsed u.toJS)) :
    toggleTodo net t.toJS { todos := .arr (ts.map Todo.toJS), loading := l, error := e }
      = .ok { todos := .arr ((ts.map fun x => if x.id = t.id then u else x).map Todo.toJS),
              loading := l, error := e } := by
  simp only [toggleTodo, renderRow_toJS, updateTodoStatus, Todo.row, hnet,
    updateTodoStatus_resume, update_todos, hid]

/-- Only `SET_LOADING` can make `loading` truthy. -/
theorem dataReducer_loading (s s' : State) (a : Action) (h : dataReducer s a = .ok s')
    (ha : ∀ p, a ≠ .SET_LOADING p) (hl : truthy s'.loading = true) :
    truthy s.loading = true := by
  cases a with
  | SET_LOADING p => exact absurd rfl (ha p)
  | SET_TODOS p => simp [dataReducer] at h; subst h; simp [truthy] at hl
  | ADD_TODO p =>
    simp only [dataReducer] at h
    split at h
    · cases h
    · simp at h; subst h; exact hl
  | UPDATE_TODO p =>
    simp only [dataReducer] at h
    split at h
    · cases h
    · split at h
      · cases h
      · simp at h; subst h; exact hl
  | SET_ERROR p => simp [dataReducer] at h; subst h; simp [truthy] at hl
  | other => simp [dataReducer] at h; subst h; exact hl

theorem fetchTodos_resume_loading (e : Engine) (r : NetResult) (s s' : State)
    (h : fetchTodos_resume e r s = .ok s') : truthy s'.loading = false := by
  unfold fetchTodos_resume at h
  split at h
  · simp [dataReducer] at h; subst h; rfl
  · simp [dataReducer] at h; subst h; rfl
  · simp [dataReducer] at h; subst h; rfl
  · split at h
    · simp [dataReducer] at h; subst h; rfl
    · simp [dataReducer] at h; subst h; rfl

theorem addTodo_resume_loading (r : NetResult) (s s' : State)
    (h : addTodo_resume r s = .ok s') (hl : truthy s'.loading = true) :
    truthy s.loading = true := by
  unfold addTodo_resume at h
  split at h <;> exact dataReducer_loading _ _ _ h (by intro p; simp) hl

theorem updateTodoStatus_resume_loading (r : NetResult) (s s' : State)
    (h : updateTodoStatus_resume r s = .ok s') (hl : truthy s'.loading = true) :
    truthy s.loading = true := by
  unfold updateTodoStatus_resume at h
  split at h <;> exact dataReducer_loading _ _ _ h (by intro p; simp) hl

/-- One event keeps: loading truthy only with a list call in flight. -/
theorem step_keeps_loading_inv (e : Engine) (sys sys' : Sys) (ev : Event)
    (hinv : truthy sys.store.loading = true → 0 < sys.listInFlight)
    (h : step e sys ev = some sys') :
    truthy sys'.store.loading = true → 0 < sys'.listInFlight := by
  intro hl
  cases ev with
  | refreshStarts =>
    simp only [step] at h
    split at h
    · simp at h; subst h; simp
    · cases h
  | listSettles r =>
    simp only [step] at h
    split at h
    · cases h
    · split at h
      · rename_i s hs
        simp at h; subst h
        rw [fetchTodos_resume_loading e r _ _ hs] at hl
        cases hl
      · cases h
  | createSettles r =>
    simp only [step] at h
    split at h
    · rename_i s hs
      simp at h; subst h
      exact hinv (addTodo_resume_loading r _ _ hs hl)
    · cases h
  | updateSettles r =>
    simp only [step] at h
    split at h
    · rename_i s hs
      simp at h; subst h
      exact hinv (updateTodoStatus_resume_loading r _ _ hs hl)
    · cases h

theorem runEvents_keeps_loading_inv (e : Engine) (evs : List Event) (sys sys' : Sys)
    (hinv : truthy sys.store.loading = true → 0 < sys.listInFlight)
    (h : runEvents e sys evs = some sys') :
    truthy sys'.store.loading = true → 0 < sys'.listInFlight := by
  induction evs generalizing sys with
  | nil => simp [runEvents] at h; subst h; exact hinv
  | cons ev rest ih =>
    simp only [runEvents] at h
    split at h
    · cases h
    · rename_i sys1 hstep
      exact ih sys1 (step_keeps_loading_inv e sys sys1 ev hinv hstep) h

/-- A truthy error stays truthy along any run whose `SET_ERROR` payloads are truthy. -/
theorem runActions_error_truthy (acts : List Action) (s s' : State)
    (hs : truthy s.error = true)
    (hacts : ∀ p, Action.SET_ERROR p ∈ acts → truthy p = true)
    (h : runActions s acts = .ok s') : truthy s'.error = true := by
  induction acts generalizing s with
  | nil => simp [runActions] at h; subst h; exact hs
  | cons a rest ih =>
    simp only [runActions] at h
    split at h
    · cases h
    · rename_i s1 h1
      refine ih s1 ?_ (fun p hp => hacts p (List.mem_cons_of_mem _ hp)) h
      rcases dataReducer_error s s1 a h1 with h2 | ⟨p, hp, h2⟩
      · rw [h2]; exact hs
      · rw [h2]; exact hacts p (by rw [hp]; exact List.mem_cons_self _ _)

/-- With a truthy error `TodoApp` never returns the list view. -/
theorem TodoApp_error_truthy (s : State) (hs : truthy s.error = true) (rows : List Row) :
    TodoApp s ≠ .ok (.list rows) := by
  unfold TodoApp
  split
  · simp
  · simp
  · simp [hs]

/-- On a list of tasks, a run of typed actions returns a state of the same form, whose
error is the one before or the message of a `SET_ERROR` of the run. -/
theorem runActions_typed (acts : List TodoAction) (ts : List Todo) (l : Bool)
    (err : JSVal) :
    ∃ (ts' : List Todo) (l' : Bool) (err' : JSVal),
      runActions { todos := .arr (ts.map Todo.toJS), loading := .bool l, error := err }
          (acts.map TodoAction.toAction)
        = .ok { todos := .arr (ts'.map Todo.toJS), loading := .bool l', error := err' }
      ∧ (err' = err ∨ ∃ m, TodoAction.setError m ∈ acts ∧ err' = .str m) := by
  induction acts generalizing ts l err with
  | nil => exact ⟨ts, l, err, rfl, Or.inl rfl⟩
  | cons a rest ih =>
    have lift : ∀ err' : JSVal,
        (err' = err ∨ ∃ m, TodoAction.setError m ∈ rest ∧ err' = .str m) →
        (err' = err ∨ ∃ m, TodoAction.setError m ∈ a :: rest ∧ err' = .str m) := by
      intro err' h
      rcases h with h | ⟨m, hm, h⟩
      · exact Or.inl h
      · exact Or.inr ⟨m, List.mem_cons_of_mem _ hm, h⟩
    cases a with
    | setLoading b =>
      obtain ⟨ts', l', err', h, he⟩ := ih ts b err
      exact ⟨ts', l', err',
        by simpa [runActions, TodoAction.toAction, dataReducer] using h, lift err' he⟩
    | setTodos us =>
      obtain ⟨ts', l', err', h, he⟩ := ih us false err
      exact ⟨ts', l', err',
        by simpa [runActions, TodoAction.toAction, dataReducer] using h, lift err' he⟩
    | addTodo t =>
      obtain ⟨ts', l', err', h, he⟩ := ih (t :: ts) l err
      exact ⟨ts', l', err',
        by simpa [runActions, TodoAction.toAction, dataReducer, spread] using h, lift err' he⟩
    | updateTodo t =>
      obtain ⟨ts', l', err', h, he⟩ :=
        ih (ts.map fun x => if x.id = t.id then t else x) l err
      refine ⟨ts', l', err', ?_, lift err' he⟩
      simp only [List.map_cons, runActions, TodoAction.toAction, update_todos]
      exact h
    | setError m =>
      obtain ⟨ts', l', err', h, he⟩ := ih ts false (.str m)
      refine ⟨ts', l', err',
        by simpa [runActions, TodoAction.toAction, dataReducer] using h, ?_⟩
      rcases he with he | ⟨m', hm', he⟩
      · exact Or.inr ⟨m, List.mem_cons_self _ _, he⟩
      · exact Or.inr ⟨m', List.mem_cons_of_mem _ hm', he⟩

theorem mounted_store : fetchTodos_begin initialState = .ok mounted.store := rfl

theorem truthy_bool (b : Bool) : truthy (.bool b) = b := rfl

theorem TodoApp_todos (ts : List Todo) (l : Bool) (e : JSVal) :
    TodoApp { todos := .arr (ts.map Todo.toJS), loading := .bool l, error := e }
      = .ok (if l = true ∧ ts = [] then View.loading
             else if truthy e = true then View.error e
             else View.list (ts.map Todo.row)) := by
  cases l with
  | false =>
    simp only [TodoApp, loadingAndEmpty, truthy_bool, arrayItems, mapThrowing_renderRow]
    by_cases h : truthy e = true <;> simp [h]
  | true =>
    cases ts with
    | nil =>
      simp [TodoApp, loadingAndEmpty, truthy_bool, getProp, strictEq]
    | cons x xs =>
      have hlen : strictEq (.num ((List.map Todo.toJS (x :: xs)).length : Nat)) (.num 0)
          = false := by
        simp only [strictEq, List.length_map, List.length_cons]
        simp
        omega
      simp only [TodoApp, loadingAndEmpty, truthy_bool, getProp, hlen, arrayItems,
        mapThrowing_renderRow]
      by_cases h : truthy e = true <;> simp [h]

/-! ## The claims -/

/-- C1: on a state whose todos are a list, `ADD_TODO` with payload `t` returns the state whose
list is one longer, has `t` at index 0 and the old entries, in order, at indices 1..n;
nothing is assumed about ids, so a task whose id is already present is added again. -/
theorem C1_add_todo_prepends (ts : List JSVal) (l e t : JSVal) :
    ∃ ts', dataReducer { todos := .arr ts, loading := l, error := e } (.ADD_TODO t)
        = .ok { todos := .arr ts', loading := l, error := e }
      ∧ ts'.length = ts.length + 1
      ∧ ts'[0]? = some t
      ∧ ∀ i : Nat, ts'[i + 1]? = ts[i]? :=
  ⟨t :: ts, rfl, rfl, by simp, fun _ => by simp⟩

/-- C2: on a list of tasks, `UPDATE_TODO` with a task `t` returns a list of the same length
whose entry at each index is `t` where the old entry has the id of `t` and the old entry
otherwise; with no such entry the state is unchanged; and any run of `UPDATE_TODO` actions
returns a list of tasks of the same length. -/
theorem C2_update_todo_replaces (ts : List Todo) (l e : JSVal) (t : Todo) :
    (∃ ts' : List Todo,
        dataReducer { todos := .arr (ts.map Todo.toJS), loading := l, error := e }
            (.UPDATE_TODO t.toJS)
          = .ok { todos := .arr (ts'.map Todo.toJS), loading := l, error := e }
        ∧ ts'.length = ts.length
        ∧ (∀ (i : Nat) (x : Todo), ts[i]? = some x → ts'[i]? = some (if x.id = t.id then t else x))
        ∧ ((∀ x ∈ ts, x.id ≠ t.id) → ts' = ts))
    ∧ ∀ us : List Todo, ∃ ts' : List Todo,
        runActions { todos := .arr (ts.map Todo.toJS), loading := l, error := e }
            (us.map fun u => .UPDATE_TODO u.toJS)
          = .ok { todos := .arr (ts'.map Todo.toJS), loading := l, error := e }
        ∧ ts'.length = ts.length := by
  constructor
  · refine ⟨ts.map fun x => if x.id = t.id then t else x, update_todos ts l e t, by simp, ?_, ?_⟩
    · intro i x h
      simp [List.getElem?_map, h]
    · intro h
      conv_rhs => rw [← List.map_id ts]
      apply List.map_congr_left
      intro x hx
      simp [h x hx]
  · intro us
    induction us generalizing ts with
    | nil => exact ⟨ts, rfl, rfl⟩
    | cons u us ih =>
      obtain ⟨ts', h1, h2⟩ := ih (ts.map fun x => if x.id = u.id then u else x)
      refine ⟨ts', ?_, by simpa using h2⟩
      simp only [List.map_cons, runActions, update_todos]
      exact h1

theorem C2_update_todo_replaces_witness :
    ∃ ts' : List Todo,
      dataReducer { todos := .arr ([(⟨1, "Buy milk", false, 5⟩ : Todo),
                                    ⟨2, "Walk", false, 5⟩].map Todo.toJS),
                    loading := .bool false, error := .null }
          (.UPDATE_TODO (Todo.toJS ⟨2, "Walk", true, 5⟩))
        = .ok { todos := .arr (ts'.map Todo.toJS), loading := .bool false, error := .null }
      ∧ ts'.length = 2
      ∧ ts'[1]? = some ⟨2, "Walk", true, 5⟩ :=
  let ⟨ts', h1, h2, h3, _⟩ :=
    (C2_update_todo_replaces [⟨1, "Buy milk", false, 5⟩, ⟨2, "Walk", false, 5⟩]
      (.bool false) .null ⟨2, "Walk", true, 5⟩).1
  ⟨ts', h1, h2, h3 1 ⟨2, "Walk", false, 5⟩ rfl⟩

/-- C3: `SET_TODOS` with `ts` followed by `SET_ERROR` with `msg` returns the state with
todos `ts`, loading `false` and error `msg`, whatever the state before was. -/
theorem C3_load_then_fail_keeps_todos (s : State) (ts msg : JSVal) :
    runActions s [.SET_TODOS ts, .SET_ERROR msg]
      = .ok { todos := ts, loading := .bool false, error := msg } :=
  rfl

/-- C4 (as stated, refuted): with one task in the list, loading `false` and the empty
string as error, the error is not `null` and yet `TodoApp` returns the list view. -/
theorem C4_counterexample_empty_message :
    JSVal.str "" ≠ JSVal.null
    ∧ TodoApp { todos := .arr [Todo.toJS ⟨1, "Buy milk", false, 5⟩], loading := .bool false,
                error := .str "" }
        = .ok (.list [{ key := .num 1, struck := false, text := .str "Buy milk",
                        pressId := .num 1, pressCompleted := true, label := "Complete" }]) := by
  refine ⟨by simp, ?_⟩
  rw [show [Todo.toJS ⟨1, "Buy milk", false, 5⟩] = [(⟨1, "Buy milk", false, 5⟩ : Todo)].map Todo.toJS
    from rfl, TodoApp_todos]
  simp [truthy, Todo.row]

/-- C4 (amended): on a list of tasks, `TodoApp` returns the loading indicator when loading
is true and the list is empty; otherwise the error screen when the error is a non-empty
message; otherwise (error `null` or the empty string) the list view with the row of each
task, in order. -/
theorem C4_view_selection (ts : List Todo) (loading : Bool) (error : Option String) :
    TodoApp { todos := .arr (ts.map Todo.toJS), loading := .bool loading,
              error := errorVal error }
      = .ok (if loading = true ∧ ts = [] then View.loading
             else match error with
               | none => View.list (ts.map Todo.row)
               | some m => if m = "" then View.list (ts.map Todo.row)
                           else View.error (.str m)) := by
  rw [TodoApp_todos]
  cases error with
  | none => simp [errorVal, truthy]
  | some m =>
    by_cases hm : m = ""
    · simp [errorVal, truthy, hm]
    · simp [errorVal, truthy, hm]

/-- C5 (as stated, refuted): the state holds the error of a failed list call; the list call
of the retry succeeds with one task, and the error of the new state is still that message,
not `null`. -/
theorem C5_counterexample_error_stays :
    dataReducer { todos := .arr [], loading := .bool true,
                  error := .str "Failed to fetch todos." }
        (.SET_TODOS (.arr [Todo.toJS ⟨1, "Buy milk", false, 5⟩]))
      = .ok { todos := .arr [Todo.toJS ⟨1, "Buy milk", false, 5⟩], loading := .bool false,
              error := .str "Failed to fetch todos." }
    ∧ JSVal.str "Failed to fetch todos." ≠ JSVal.null :=
  ⟨rfl, by simp⟩

/-- C5 (amended): on a state whose list holds tasks and whose error is not `null`, each of
`SET_TODOS`, `ADD_TODO` and `UPDATE_TODO` returns a state whose error is the one the state
had, so it is still not `null`. -/
theorem C5_success_keeps_error (ts us : List Todo) (t : Todo) (l e : JSVal)
    (he : e ≠ .null) :
    (∃ s', dataReducer { todos := .arr (ts.map Todo.toJS), loading := l, error := e }
              (.SET_TODOS (.arr (us.map Todo.toJS))) = .ok s'
        ∧ s'.error = e ∧ s'.error ≠ .null)
    ∧ (∃ s', dataReducer { todos := .arr (ts.map Todo.toJS), loading := l, error := e }
              (.ADD_TODO t.toJS) = .ok s'
        ∧ s'.error = e ∧ s'.error ≠ .null)
    ∧ (∃ s', dataReducer { todos := .arr (ts.map Todo.toJS), loading := l, error := e }
              (.UPDATE_TODO t.toJS) = .ok s'
        ∧ s'.error = e ∧ s'.error ≠ .null) :=
  ⟨⟨_, rfl, rfl, he⟩, ⟨_, rfl, rfl, he⟩, ⟨_, update_todos ts l e t, rfl, he⟩⟩

theorem C5_success_keeps_error_witness :
    JSVal.str "Failed to add todo." ≠ JSVal.null
    ∧ ∃ s', dataReducer { todos := .arr ([(⟨1, "Buy milk", false, 5⟩ : Todo)].map Todo.toJS),
                          loading := .bool false, error := .str "Failed to add todo." }
              (.UPDATE_TODO (Todo.toJS ⟨1, "Buy milk", true, 5⟩)) = .ok s'
        ∧ s'.error = .str "Failed to add todo." ∧ s'.error ≠ .null :=
  ⟨by simp,
   (C5_success_keeps_error [⟨1, "Buy milk", false, 5⟩] [] ⟨1, "Buy milk", true, 5⟩
      (.bool false) (.str "Failed to add todo.") (by simp)).2.2⟩

/-- C6: `SET_TODOS` with `ts` returns the state with todos `ts`, loading `false` and the
error field of the state before. -/
theorem C6_set_todos_keeps_error (s : State) (ts : JSVal) :
    dataReducer s (.SET_TODOS ts)
      = .ok { todos := ts, loading := .bool false, error := s.error } :=
  rfl

/-- C7 (as stated, refuted): the list call answers with status ok and the well-formed body
`{"message": "hello"}`, which has no `todos`; `fetchTodos` ends with todos `undefined`,
no error set, and the task that was in the list gone. -/
theorem C7_counterexample_body_without_todos :
    fetchTodos ⟨"Cannot read property of null"⟩
        (fun _ => .response true (.parsed (.obj [("message", .str "hello")])))
        { todos := .arr [Todo.toJS ⟨1, "Buy milk", false, 5⟩], loading := .bool false,
          error := .null }
      = .ok { todos := .undefined, loading := .bool false, error := .null } := by
  simp [fetchTodos, fetchTodos_begin, fetchTodos_resume, dataReducer, getProp, ownProp,
    List.lookup, Key.name]

/-- C7 (amended): when the list call is rejected, or its status is not successful, or its
body is not valid JSON or is the JSON value `null`, `fetchTodos` ends in the state with the
message as error, loading `false` and the todos it had; when the status is successful and
the body parses to a value `data` whose `todos` can be read, it ends in the state with
todos `data.todos` (`undefined` when there is none), loading `false` and the error it had. -/
theorem C7_fetchTodos_outcome (e : Engine) (net : Request → NetResult) (s : State) :
    (∀ m, listFailure e (net .list) = some m →
        fetchTodos e net s
          = .ok { todos := s.todos, loading := .bool false, error := .str m })
    ∧ (∀ data v, net .list = .response true (.parsed data) → getProp data .todos = .ok v →
        fetchTodos e net s
          = .ok { todos := v, loading := .bool false, error := s.error }) := by
  constructor
  · intro m h
    simp only [fetchTodos, fetchTodos_begin, dataReducer]
    generalize net .list = r at h
    match r, h with
    | .rejected _, h => simp [listFailure] at h; subst h; rfl
    | .response false _, h => simp [listFailure] at h; subst h; rfl
    | .response true (.invalid _), h => simp [listFailure] at h; subst h; rfl
    | .response true (.parsed .null), h => simp [listFailure] at h; subst h; rfl
    | .response true (.parsed .undefined), h => simp [listFailure] at h
    | .response true (.parsed (.bool _)), h => simp [listFailure] at h
    | .response true (.parsed (.num _)), h => simp [listFailure] at h
    | .response true (.parsed (.str _)), h => simp [listFailure] at h
    | .response true (.parsed (.arr _)), h => simp [listFailure] at h
    | .response true (.parsed (.obj _)), h => simp [listFailure] at h
  · intro data v h hv
    simp only [fetchTodos, fetchTodos_begin, dataReducer, h, fetchTodos_resume, hv]

theorem C7_fetchTodos_outcome_witness :
    listFailure ⟨"Cannot read property of null"⟩
        ((fun _ => NetResult.response false (.invalid "Unexpected token")) Request.list)
      = some "Failed to fetch todos."
    ∧ fetchTodos ⟨"Cannot read property of null"⟩
        (fun _ => .response false (.invalid "Unexpected token")) initialState
      = .ok { todos := initialState.todos, loading := .bool false,
              error := .str "Failed to fetch todos." } :=
  ⟨rfl, (C7_fetchTodos_outcome ⟨"Cannot read property of null"⟩
      (fun _ => .response false (.invalid "Unexpected token")) initialState).1 _ rfl⟩

/-- C8: the list holds the task `t` at index `j`, and the service answers every update call
for the id of `t` with `t` carrying the requested `completed`. Then the press handler of the
row of `t` returns a state whose entry `j` is `t` with `completed` negated, the press handler
of the row of that entry returns a state whose entry `j` is `t` again, and in that state
every entry with the id of `t` has the `completed` that `t` had. -/
theorem C8_toggle_twice_restores (net : Request → NetResult) (ts : List Todo) (l e : JSVal)
    (j : Nat) (t : Todo) (hj : ts[j]? = some t)
    (hnet : ∀ c : Bool, net (.update (.num t.id) c)
      = .response true (.parsed (Todo.toJS { t with completed := c }))) :
    ∃ ts1 ts2 : List Todo,
      toggleTodo net t.toJS { todos := .arr (ts.map Todo.toJS), loading := l, error := e }
        = .ok { todos := .arr (ts1.map Todo.toJS), loading := l, error := e }
      ∧ ts1[j]? = some { t with completed := !t.completed }
      ∧ toggleTodo net (Todo.toJS { t with completed := !t.completed })
          { todos := .arr (ts1.map Todo.toJS), loading := l, error := e }
        = .ok { todos := .arr (ts2.map Todo.toJS), loading := l, error := e }
      ∧ ts2[j]? = some t
      ∧ ts2.length = ts.length
      ∧ ∀ x ∈ ts2, x.id = t.id → x.completed = t.completed := by
  refine ⟨ts.map fun x => if x.id = t.id then { t with completed := !t.completed } else x,
    (ts.map fun x => if x.id = t.id then { t with completed := !t.completed } else x).map
      fun x => if x.id = t.id then t else x, ?_, ?_, ?_, ?_, ?_, ?_⟩
  · exact toggleTodo_toJS net ts l e t _ rfl (hnet _)
  · simp [List.getElem?_map, hj]
  · have h := toggleTodo_toJS net
      (ts.map fun x => if x.id = t.id then { t with completed := !t.completed } else x) l e
      { t with completed := !t.completed } t rfl (by simpa using hnet t.completed)
    simpa using h
  · simp [List.getElem?_map, hj]
  · simp
  · intro x hx hid
    simp only [List.map_map, List.mem_map, Function.comp] at hx
    obtain ⟨y, _, hy⟩ := hx
    by_cases hyid : y.id = t.id
    · simp [hyid] at hy; rw [← hy]
    · simp [hyid] at hy; rw [← hy] at hid; exact absurd hid hyid

theorem C8_toggle_twice_restores_witness :
    ∃ ts1 ts2 : List Todo,
      toggleTodo
          (fun r => match r with
            | .update _ c => .response true (.parsed (Todo.toJS ⟨3, "Walk", c, 5⟩))
            | _ => .rejected "Network request failed")
          (Todo.toJS ⟨3, "Walk", false, 5⟩)
          { todos := .arr ([(⟨3, "Walk", false, 5⟩ : Todo)].map Todo.toJS),
            loading := .bool false, error := .null }
        = .ok { todos := .arr (ts1.map Todo.toJS), loading := .bool false, error := .null }
      ∧ ts1[0]? = some ⟨3, "Walk", true, 5⟩
      ∧ toggleTodo
          (fun r => match r with
            | .update _ c => .response true (.parsed (Todo.toJS ⟨3, "Walk", c, 5⟩))
            | _ => .rejected "Network request failed")
          (Todo.toJS ⟨3, "Walk", true, 5⟩)
          { todos := .arr (ts1.map Todo.toJS), loading := .bool false, error := .null }
        = .ok { todos := .arr (ts2.map Todo.toJS), loading := .bool false, error := .null }
      ∧ ts2[0]? = some ⟨3, "Walk", false, 5⟩
      ∧ ts2.length = 1
      ∧ ∀ x ∈ ts2, x.id = 3 → x.completed = false :=
  C8_toggle_twice_restores
    (fun r => match r with
      | .update _ c => .response true (.parsed (Todo.toJS ⟨3, "Walk", c, 5⟩))
      | _ => .rejected "Network request failed")
    [⟨3, "Walk", false, 5⟩] (.bool false) .null 0 ⟨3, "Walk", false, 5⟩ rfl (fun _ => rfl)

/-- C9: in every state reached from the mounted store (empty list, loading `true`, one list
call in flight) by any run of events (a refresh starts; a list, create or update call settles
with any outcome), loading is truthy only if at least one list call is in flight. -/
theorem C9_loading_only_while_fetching (e : Engine) (evs : List Event) (sys : Sys)
    (h : runEvents e mounted evs = some sys) (hl : truthy sys.store.loading = true) :
    0 < sys.listInFlight :=
  runEvents_keeps_loading_inv e evs mounted sys (fun _ => Nat.one_pos) h hl

theorem C9_loading_only_while_fetching_witness :
    runEvents ⟨"Cannot read property of null"⟩ mounted
        [.listSettles (.rejected "Network request failed"), .refreshStarts]
      = some { store := { todos := .arr [], loading := .bool true,
                          error := .str "Network request failed" },
               listInFlight := 1 }
    ∧ truthy (JSVal.bool true) = true
    ∧ 0 < (1 : Nat) :=
  ⟨rfl, rfl,
   C9_loading_only_while_fetching ⟨"Cannot read property of null"⟩
     [.listSettles (.rejected "Network request failed"), .refreshStarts]
     { store := { todos := .arr [], loading := .bool true,
                  error := .str "Network request failed" },
       listInFlight := 1 }
     rfl rfl⟩

/-- C10: from a state whose list holds tasks and whose error is a non-empty message, every
finite run of typed actions (`SET_LOADING`, `SET_TODOS`, `ADD_TODO`, `UPDATE_TODO`, and
`SET_ERROR` with a non-empty message) returns a state whose error is a non-empty message,
hence not `null`, and on which `TodoApp` returns the loading indicator or the error screen,
never the list view. -/
theorem C10_error_never_cleared (ts : List Todo) (l : Bool) (m : String)
    (acts : List TodoAction) (hm : m ≠ "")
    (hacts : ∀ m', TodoAction.setError m' ∈ acts → m' ≠ "") :
    ∃ s', runActions { todos := .arr (ts.map Todo.toJS), loading := .bool l, error := .str m }
            (acts.map TodoAction.toAction) = .ok s'
      ∧ (∃ m', s'.error = .str m' ∧ m' ≠ "")
      ∧ s'.error ≠ .null
      ∧ (TodoApp s' = .ok .loading ∨ TodoApp s' = .ok (.error s'.error))
      ∧ ∀ rows, TodoApp s' ≠ .ok (.list rows) := by
  obtain ⟨ts', l', err', hrun, herr⟩ := runActions_typed acts ts l (.str m)
  have hmsg : ∃ m', err' = .str m' ∧ m' ≠ "" := by
    rcases herr with h | ⟨m', hm', h⟩
    · exact ⟨m, h, hm⟩
    · exact ⟨m', h, hacts m' hm'⟩
  obtain ⟨m', hm1, hm2⟩ := hmsg
  have htruthy : truthy err' = true := by simp [hm1, truthy, hm2]
  refine ⟨_, hrun, ⟨m', hm1, hm2⟩, by simp [hm1], ?_, ?_⟩
  · rw [TodoApp_todos]
    by_cases hc : l' = true ∧ ts' = []
    · exact Or.inl (by rw [if_pos hc])
    · exact Or.inr (by rw [if_neg hc, if_pos htruthy])
  · exact TodoApp_error_truthy _ htruthy

theorem C10_error_never_cleared_witness :
    ("Failed to fetch todos." : String) ≠ ""
    ∧ ∃ s', runActions { todos := .arr (([] : List Todo).map Todo.toJS), loading := .bool false,
                         error := .str "Failed to fetch todos." }
            ([TodoAction.setLoading true,
              TodoAction.setTodos [⟨1, "Buy milk", false, 5⟩]].map TodoAction.toAction)
          = .ok s'
      ∧ (∃ m', s'.error = .str m' ∧ m' ≠ "")
      ∧ s'.error ≠ .null
      ∧ (TodoApp s' = .ok .loading ∨ TodoApp s' = .ok (.error s'.error))
      ∧ ∀ rows, TodoApp s' ≠ .ok (.list rows) :=
  ⟨by decide,
   C10_error_never_cleared [] false "Failed to fetch todos."
     [.setLoading true, .setTodos [⟨1, "Buy milk", false, 5⟩]] (by decide)
     (by intro m' h; simp at h)⟩

end SmartGreenRaisins
